import Mathlib

/-!
Verification of the `IdentityClient` token-verification client
(`src/packages/backend/src/index.ts`, class `IdentityClient`).

The client's own logic (header parsing, key-store lookup, the refresh
decision, state updates, error propagation) is embedded directly from the
source. Operations of the external `jose` library (`JWT.decode`,
`JWT.IdToken.verify` signature checking, `JWK.asKey`) and of the HTTP/JSON
stack (`fetch`, `response.json()`) are not part of this repository; they are
modelled from the spec as environment parameters, so every theorem
quantifies over their behaviour.

State is threaded explicitly: each operation takes the current
`ClientState` and returns the result, the next state, and the number of
network fetches the call performed.
-/

namespace Backstage

/-- Public signing key material, as held by the key store. The `kid` is the
key identifier; `material` stands for the opaque public-key bytes. -/
structure SigningKey where
  kid : String
  material : String
deriving DecidableEq, Repr

/-- A public-key record as it appears in the fetched JWKS JSON body
(`JWKECKey` in the source): a `kid` plus the remaining record content,
kept opaque. -/
structure JWKECKey where
  kid : String
  material : String
deriving DecidableEq, Repr

/-- The decoded (unverified) content of a token, as produced by the jose
library's `JWT.decode` with `complete: true`: the header's `kid` and the
payload claims. `iat` is `none` when the payload has no `iat` claim. -/
structure DecodedToken where
  kid : String
  iat : Option Int
  sub : String
  aud : String
  iss : String
  exp : Option Int
  nbf : Option Int
deriving DecidableEq, Repr

/-- The verified output (`BackstageIdentity` in the source): `id` is the
token's subject claim, `idToken` the raw token string. -/
structure BackstageIdentity where
  id : String
  idToken : String
deriving DecidableEq, Repr

/-- The failure taxonomy of `authenticate`. In the source each case is a
thrown `Error`; `fetchError` carries the message of a failed key fetch. -/
inductive AuthErr where
  | missingToken
  | malformedToken
  | unknownKey
  | fetchError (message : String)
  | invalidToken
deriving DecidableEq, Repr

/-- The mutable fields of `IdentityClient`: the configured issuer string
(read-only after construction), the key-store snapshot, and the
`keyStoreUpdated` timestamp (seconds since epoch). -/
structure ClientState where
  issuer : String
  keyStore : List SigningKey
  keyStoreUpdated : Int
deriving DecidableEq, Repr

/-- The constructor: empty key store, `keyStoreUpdated = 0`. -/
def initialState (issuer : String) : ClientState :=
  { issuer := issuer, keyStore := [], keyStoreUpdated := 0 }

/-- Modelled from the spec: the jose library's operations, which are not
part of this repository. `decode raw` is `JWT.decode(raw)` — `none` when
the raw string is not a structurally valid token (undecodable segments),
in which case the source call throws. `sigValid raw key alg` is whether
the signature of `raw` verifies under `key` with algorithm `alg`, as
checked inside `JWT.IdToken.verify`. -/
structure JoseEnv where
  decode : String → Option DecodedToken
  sigValid : String → SigningKey → String → Bool

/-- The HTTP response observed by `listPublicKeys`: `ok` is whether the
status is in the success range; `body` the raw response text. -/
structure HttpResponse where
  ok : Bool
  status : Nat
  statusText : String
  body : String
deriving DecidableEq, Repr

/-- Modelled from the spec: the network and JSON stack used by
`listPublicKeys` and `refreshKeyStore`, not part of this repository.
`response` is the result of the HTTP GET on the JWKS endpoint;
`parseJson body` is `response.json()` read as the expected
`keys`-array structure, `none` when the body is not parseable as that
structure; `asKey rec` is `JWK.asKey(rec)`, `none` when the record cannot
be converted into usable key material (the source call throws). -/
structure FetchEnv where
  response : HttpResponse
  parseJson : String → Option (List JWKECKey)
  asKey : JWKECKey → Option SigningKey

/-- `this.keyStore.get(\x7b kid \x7d)`: look up a key by `kid` in the
snapshot; `none` models the `undefined` result. -/
def keyStoreGet (ks : List SigningKey) (kid : String) : Option SigningKey :=
  ks.find? (fun k => k.kid == kid)

/-- The ECMAScript regex class `\s`, as used by the header-matching
regex: the WhiteSpace characters (TAB, VT, FF, SPACE, NBSP, ZWNBSP and
the Unicode space separators U+1680, U+2000..U+200A, U+202F, U+205F,
U+3000) together with the LineTerminator characters (LF, CR, U+2028,
U+2029). -/
def isSpaceChar (c : Char) : Bool :=
  c == ' ' || c == '\t' || c == '\n' || c == '\x0b' || c == '\x0c' ||
  c == '\r' || c == '\u00A0' || c == '\u1680' ||
  (0x2000 ≤ c.toNat && c.toNat ≤ 0x200A) ||
  c == '\u2028' || c == '\u2029' || c == '\u202F' || c == '\u205F' ||
  c == '\u3000' || c == '\uFEFF'

/-- Case-insensitive match of one character against its two cases. -/
def isCharCI (c low high : Char) : Bool :=
  c == low || c == high

/-- Match the literal `Bearer` case-insensitively at the head of the
character list, returning the remainder on success. -/
def stripBearerCI : List Char → Option (List Char)
  | c1 :: c2 :: c3 :: c4 :: c5 :: c6 :: rest =>
    if isCharCI c1 'b' 'B' && isCharCI c2 'e' 'E' && isCharCI c3 'a' 'A' &&
        isCharCI c4 'r' 'R' && isCharCI c5 'e' 'E' && isCharCI c6 'r' 'R' then
      some rest
    else
      none
  | _ => none

/-- Attempt the regex `Bearer\s+(\S+)` (case-insensitive) anchored at the
head of the character list: the literal scheme, at least one whitespace
character, then the maximal nonempty run of non-whitespace characters,
which is the captured token. -/
def matchBearerAt (cs : List Char) : Option String :=
  match stripBearerCI cs with
  | none => none
  | some rest =>
    if (rest.takeWhile isSpaceChar).isEmpty then
      none
    else
      let tok := (rest.dropWhile isSpaceChar).takeWhile (fun c => !isSpaceChar c)
      if tok.isEmpty then none else some (String.mk tok)

/-- `String.prototype.match` with the regex `/Bearer\s+(\S+)/i`: an
unanchored search returning the first (leftmost) match's capture group. -/
def searchBearer : List Char → Option String
  | [] => none
  | c :: cs =>
    match matchBearerAt (c :: cs) with
    | some tok => some tok
    | none => searchBearer cs

/-- `IdentityClient.getBearerToken`: `none` models both an `undefined`
header and the `null` result (the source returns `null` for a non-string
header and when the regex does not match). -/
def getBearerToken (authorizationHeader : Option String) : Option String :=
  match authorizationHeader with
  | none => none
  | some s => searchBearer s.data

/-- `IdentityClient.listPublicKeys`: GET the JWKS endpoint; on a
non-success status fail with the message built from status, status text
and raw body; otherwise parse the body as the `keys`-array structure. -/
def listPublicKeys (env : FetchEnv) : Except String (List JWKECKey) :=
  if !env.response.ok then
    .error ("Request failed with " ++ toString env.response.status ++ " " ++
      env.response.statusText ++ ", " ++ env.response.body)
  else
    match env.parseJson env.response.body with
    | none => .error "Failed to parse response body"
    | some keys => .ok keys

/-- `publicKeys.keys.map(key => JWK.asKey(key))`: convert every record,
failing as a whole as soon as one record cannot be converted (the source
`.map` callback throws, aborting the whole construction). -/
def convertKeys (asKey : JWKECKey → Option SigningKey) :
    List JWKECKey → Option (List SigningKey)
  | [] => some []
  | k :: rest =>
    match asKey k with
    | none => none
    | some sk =>
      match convertKeys asKey rest with
      | none => none
      | some sks => some (sk :: sks)

/-- `IdentityClient.refreshKeyStore`: fetch the public keys, convert every
record with `JWK.asKey`, and only then install the new snapshot and
timestamp. On any failure the state fields are never assigned. -/
def refreshKeyStore (env : FetchEnv) (now : Int) (s : ClientState) :
    Except String ClientState :=
  match listPublicKeys env with
  | .error m => .error m
  | .ok keys =>
    match convertKeys env.asKey keys with
    | none => .error "Failed to convert key record"
    | some sks =>
      .ok { s with keyStore := sks, keyStoreUpdated := now }

/-- The refresh guard of `IdentityClient.getKey`:
`payload?.iat && payload.iat > this.keyStoreUpdated` under JavaScript
truthiness — a missing `iat` and `iat = 0` are both falsy. -/
def iatTriggersRefresh (iat : Option Int) (keyStoreUpdated : Int) : Bool :=
  match iat with
  | none => false
  | some i => decide (i ≠ 0) && decide (keyStoreUpdated < i)

/-- `IdentityClient.getKey`: decode the token without verification
(failure throws, modelled as `malformedToken`); if the store misses the
`kid` and the `iat` guard holds, refresh once and re-run the lookup.
Returns the lookup result, the next state, and the number of fetches. -/
def getKey (jose : JoseEnv) (env : FetchEnv) (now : Int) (s : ClientState)
    (rawJwtToken : String) :
    Except AuthErr (Option SigningKey) × ClientState × Nat :=
  match jose.decode rawJwtToken with
  | none => (.error .malformedToken, s, 0)
  | some tok =>
    if (keyStoreGet s.keyStore tok.kid).isNone &&
        iatTriggersRefresh tok.iat s.keyStoreUpdated then
      match refreshKeyStore env now s with
      | .error m => (.error (.fetchError m), s, 1)
      | .ok s1 => (.ok (keyStoreGet s1.keyStore tok.kid), s1, 1)
    else
      (.ok (keyStoreGet s.keyStore tok.kid), s, 0)

/-- Modelled from the spec: `JWT.IdToken.verify(token, key,
algorithms ES256, audience backstage, issuer)` from the jose library,
which is not part of this repository. Per the spec, verify the signature
with exactly the one fixed algorithm ES256 and validate the standard
claims: audience must equal the fixed expected value, issuer must equal
the configured issuer string, and expiration / not-before must hold
relative to the current time when present. `none` models the throw. -/
def verifyIdToken (jose : JoseEnv) (now : Int) (token : String)
    (key : SigningKey) (issuer : String) : Option DecodedToken :=
  match jose.decode token with
  | none => none
  | some d =>
    if jose.sigValid token key "ES256" && d.aud == "backstage" &&
        d.iss == issuer &&
        (match d.exp with | none => true | some e => decide (now < e)) &&
        (match d.nbf with | none => true | some n => decide (n ≤ now)) then
      some d
    else
      none

/-- `IdentityClient.authenticate`: extract the bearer token, resolve the
signing key (possibly refreshing the store), verify signature and claims,
and build the identity. Returns the result, the next state, and the
number of fetches performed. -/
def authenticate (jose : JoseEnv) (env : FetchEnv) (now : Int)
    (s : ClientState) (authorizationHeader : Option String) :
    Except AuthErr BackstageIdentity × ClientState × Nat :=
  match getBearerToken authorizationHeader with
  | none => (.error .missingToken, s, 0)
  | some token =>
    match getKey jose env now s token with
    | (.error e, s1, n) => (.error e, s1, n)
    | (.ok none, s1, n) => (.error .unknownKey, s1, n)
    | (.ok (some key), s1, n) =>
      match verifyIdToken jose now token key s1.issuer with
      | none => (.error .invalidToken, s1, n)
      | some d => (.ok { id := d.sub, idToken := token }, s1, n)

/-! Concrete fixtures used to exhibit each property on explicit inputs. -/

def key1 : SigningKey := { kid := "k1", material := "pk1" }

def key2 : SigningKey := { kid := "k2", material := "pk2" }

def d1 : DecodedToken :=
  { kid := "k1", iat := some 100, sub := "alice", aud := "backstage",
    iss := "https://example.test/auth", exp := none, nbf := none }

def d2 : DecodedToken :=
  { kid := "k2", iat := some 100, sub := "bob", aud := "backstage",
    iss := "https://example.test/auth", exp := none, nbf := none }

def d0 : DecodedToken :=
  { kid := "kX", iat := none, sub := "eve", aud := "backstage",
    iss := "https://example.test/auth", exp := none, nbf := none }

def dBadAud : DecodedToken :=
  { kid := "k1", iat := some 100, sub := "mallory", aud := "other-audience",
    iss := "https://example.test/auth", exp := none, nbf := none }

def jose1 : JoseEnv :=
  { decode := fun raw => if raw == "tok1" then some d1 else none,
    sigValid := fun _ _ _ => true }

def jose2 : JoseEnv :=
  { decode := fun raw => if raw == "tok2" then some d2 else none,
    sigValid := fun _ _ _ => true }

def jose0 : JoseEnv :=
  { decode := fun raw => if raw == "tok0" then some d0 else none,
    sigValid := fun _ _ _ => true }

def joseBadAud : JoseEnv :=
  { decode := fun raw => if raw == "tokBad" then some dBadAud else none,
    sigValid := fun _ _ _ => true }

def joseNone : JoseEnv :=
  { decode := fun _ => none, sigValid := fun _ _ _ => false }

def sReady : ClientState :=
  { issuer := "https://example.test/auth", keyStore := [key1],
    keyStoreUpdated := 50 }

def sMiss : ClientState :=
  { issuer := "https://example.test/auth", keyStore := [],
    keyStoreUpdated := 50 }

def sAfter : ClientState :=
  { issuer := "https://example.test/auth", keyStore := [key2],
    keyStoreUpdated := 60 }

def respGood : HttpResponse :=
  { ok := true, status := 200, statusText := "OK", body := "jwksbody" }

def respBad : HttpResponse :=
  { ok := false, status := 500, statusText := "Internal Server Error",
    body := "oops" }

def fenvGood : FetchEnv :=
  { response := respGood,
    parseJson := fun b =>
      if b == "jwksbody" then some [{ kid := "k2", material := "pk2" }]
      else none,
    asKey := fun r => some { kid := r.kid, material := r.material } }

def fenvBad : FetchEnv :=
  { response := respBad,
    parseJson := fun _ => none,
    asKey := fun _ => none }

/-! Helper lemmas describing the branches of `getKey`, `refreshKeyStore`
and `verifyIdToken`; shared by the claim theorems below. -/

lemma getKey_hit (jose : JoseEnv) (env : FetchEnv) (now : Int)
    (s : ClientState) (token : String) (d : DecodedToken) (key : SigningKey)
    (hdec : jose.decode token = some d)
    (hkey : keyStoreGet s.keyStore d.kid = some key) :
    getKey jose env now s token = (.ok (some key), s, 0) := by
  simp [getKey, hdec, hkey]

lemma getKey_miss_norefresh (jose : JoseEnv) (env : FetchEnv) (now : Int)
    (s : ClientState) (token : String) (d : DecodedToken)
    (hdec : jose.decode token = some d)
    (hmiss : keyStoreGet s.keyStore d.kid = none)
    (hguard : iatTriggersRefresh d.iat s.keyStoreUpdated = false) :
    getKey jose env now s token = (.ok none, s, 0) := by
  simp [getKey, hdec, hmiss, hguard]

lemma getKey_miss_refresh (jose : JoseEnv) (env : FetchEnv) (now : Int)
    (s : ClientState) (token : String) (d : DecodedToken)
    (hdec : jose.decode token = some d)
    (hmiss : keyStoreGet s.keyStore d.kid = none)
    (hguard : iatTriggersRefresh d.iat s.keyStoreUpdated = true) :
    getKey jose env now s token =
      (match refreshKeyStore env now s with
       | .error m => (.error (.fetchError m), s, 1)
       | .ok s1 => (.ok (keyStoreGet s1.keyStore d.kid), s1, 1)) := by
  simp [getKey, hdec, hmiss, hguard]

lemma verifyIdToken_bad_claims (jose : JoseEnv) (now : Int) (token : String)
    (key : SigningKey) (issuer : String) (d : DecodedToken)
    (hdec : jose.decode token = some d)
    (hbad : d.aud ≠ "backstage" ∨ d.iss ≠ issuer) :
    verifyIdToken jose now token key issuer = none := by
  unfold verifyIdToken
  rw [hdec]
  rcases hbad with hb | hb
  · have h1 : (d.aud == "backstage") = false := beq_eq_false_iff_ne.mpr hb
    simp [h1]
  · have h1 : (d.iss == issuer) = false := beq_eq_false_iff_ne.mpr hb
    simp [h1]

lemma getKey_ok_some_lookup (jose : JoseEnv) (env : FetchEnv) (now : Int)
    (s : ClientState) (token : String) (key : SigningKey) (sx : ClientState)
    (nx : Nat)
    (h : getKey jose env now s token = (.ok (some key), sx, nx)) :
    ∃ d, jose.decode token = some d ∧
      keyStoreGet sx.keyStore d.kid = some key := by
  unfold getKey at h
  cases hdec : jose.decode token with
  | none =>
    rw [hdec] at h
    simp at h
  | some d =>
    simp only [hdec] at h
    refine ⟨d, rfl, ?_⟩
    by_cases hg : ((keyStoreGet s.keyStore d.kid).isNone &&
        iatTriggersRefresh d.iat s.keyStoreUpdated) = true
    · rw [if_pos hg] at h
      cases hr : refreshKeyStore env now s with
      | error m =>
        rw [hr] at h
        simp at h
      | ok s2 =>
        rw [hr] at h
        simp only [Prod.mk.injEq, Except.ok.injEq] at h
        obtain ⟨hk, hs, _⟩ := h
        subst hs
        exact hk
    · rw [if_neg hg] at h
      simp only [Prod.mk.injEq, Except.ok.injEq] at h
      obtain ⟨hk, hs, _⟩ := h
      subst hs
      exact hk

lemma convertKeys_eq_none (f : JWKECKey → Option SigningKey) :
    ∀ l : List JWKECKey, (∃ k ∈ l, f k = none) → convertKeys f l = none := by
  intro l
  induction l with
  | nil =>
    rintro ⟨k, hk, _⟩
    exact absurd hk (List.not_mem_nil k)
  | cons a t ih =>
    rintro ⟨k, hk, hfk⟩
    unfold convertKeys
    rcases List.mem_cons.mp hk with rfl | hk2
    · rw [hfk]
    · cases hfa : f a with
      | none => rfl
      | some sk => rw [ih ⟨k, hk2, hfk⟩]

/-- Claim C1: for every valid token signed with a key present in the key
store, `authenticate` returns an identity whose `id` field equals the
token's subject (`sub`) claim and whose raw-token field (`idToken`)
equals the exact bearer token string extracted from the input header. -/
theorem authenticate_valid_token_identity
    (jose : JoseEnv) (env : FetchEnv) (now : Int) (s : ClientState)
    (hdr : Option String) (token : String) (d : DecodedToken) (key : SigningKey)
    (htok : getBearerToken hdr = some token)
    (hdec : jose.decode token = some d)
    (hkey : keyStoreGet s.keyStore d.kid = some key)
    (hver : verifyIdToken jose now token key s.issuer = some d) :
    (authenticate jose env now s hdr).1 =
      .ok { id := d.sub, idToken := token } := by
  simp [authenticate, htok, getKey_hit jose env now s token d key hdec hkey,
    hver]

/-- Witness for C1 at a concrete valid token. -/
theorem authenticate_valid_token_identity_witness :
    (authenticate jose1 fenvGood 60 sReady (some "Bearer tok1")).1 =
      .ok { id := "alice", idToken := "tok1" } :=
  authenticate_valid_token_identity jose1 fenvGood 60 sReady
    (some "Bearer tok1") "tok1" d1 key1 rfl rfl rfl rfl

/-- Claim C3 (counterexample): the header `xBearer tok` has a wrong scheme
name, yet the unanchored regex search still extracts the token `tok`, so
`authenticate` does not fail with `missingToken` (it proceeds to decoding
and fails with `malformedToken` here). -/
theorem wrong_scheme_not_missingToken :
    getBearerToken (some "xBearer tok") = some "tok" ∧
    (authenticate joseNone fenvGood 0 (initialState "i")
        (some "xBearer tok")).1 = .error .malformedToken ∧
    (authenticate joseNone fenvGood 0 (initialState "i")
        (some "xBearer tok")).1 ≠ .error .missingToken := by
  have he : (authenticate joseNone fenvGood 0 (initialState "i")
      (some "xBearer tok")).1 = .error .malformedToken := rfl
  refine ⟨rfl, he, ?_⟩
  rw [he]
  simp

/-- Claim C3 (amended): for every header on which the parser finds no
occurrence of `Bearer` (case-insensitive) followed by a whitespace run
and at least one non-whitespace character — missing header, non-string
header, no such occurrence anywhere, or empty token — `authenticate`
fails with `missingToken`, performing no fetch and leaving the state
unchanged. (The search is unanchored, so a wrong scheme that merely ends
in `Bearer` still yields a token.) -/
theorem no_bearer_match_missingToken
    (jose : JoseEnv) (env : FetchEnv) (now : Int) (s : ClientState)
    (hdr : Option String)
    (h : getBearerToken hdr = none) :
    authenticate jose env now s hdr = (.error .missingToken, s, 0) := by
  simp [authenticate, h]

/-- Witness for amended C3: a `Bearer` header with only whitespace after
the scheme (empty token) fails with `missingToken`. -/
theorem no_bearer_match_missingToken_witness :
    authenticate joseNone fenvGood 0 (initialState "i") (some "Bearer   ") =
      (.error .missingToken, initialState "i", 0) :=
  no_bearer_match_missingToken joseNone fenvGood 0 (initialState "i")
    (some "Bearer   ") rfl

/-- Claim C5: for every raw token string that is not structurally
decodable, `authenticate` fails with `malformedToken` with zero fetches
and no state change (so before any network activity). -/
theorem authenticate_malformed_token
    (jose : JoseEnv) (env : FetchEnv) (now : Int) (s : ClientState)
    (hdr : Option String) (token : String)
    (htok : getBearerToken hdr = some token)
    (hdec : jose.decode token = none) :
    authenticate jose env now s hdr = (.error .malformedToken, s, 0) := by
  simp [authenticate, htok, getKey, hdec]

/-- Witness for C5 at a concrete undecodable token. -/
theorem authenticate_malformed_token_witness :
    authenticate joseNone fenvGood 0 (initialState "i") (some "Bearer zzz") =
      (.error .malformedToken, initialState "i", 0) :=
  authenticate_malformed_token joseNone fenvGood 0 (initialState "i")
    (some "Bearer zzz") "zzz" rfl rfl

/-- Claim C9: for every token whose payload lacks an `iat` claim or
carries `iat = 0`, a key-store miss never triggers a refresh fetch —
`authenticate` fails with `unknownKey`, with zero fetches and unchanged
state. -/
theorem missing_or_zero_iat_no_fetch
    (jose : JoseEnv) (env : FetchEnv) (now : Int) (s : ClientState)
    (hdr : Option String) (token : String) (d : DecodedToken)
    (htok : getBearerToken hdr = some token)
    (hdec : jose.decode token = some d)
    (hmiss : keyStoreGet s.keyStore d.kid = none)
    (hiat : d.iat = none ∨ d.iat = some 0) :
    authenticate jose env now s hdr = (.error .unknownKey, s, 0) := by
  have hguard : iatTriggersRefresh d.iat s.keyStoreUpdated = false := by
    rcases hiat with h | h <;> simp [iatTriggersRefresh, h]
  simp [authenticate, htok,
    getKey_miss_norefresh jose env now s token d hdec hmiss hguard]

/-- Witness for C9: a token with no `iat`, against the freshly
constructed store (`keyStoreUpdated = 0`). -/
theorem missing_or_zero_iat_no_fetch_witness :
    authenticate jose0 fenvGood 60 (initialState "https://example.test/auth")
        (some "Bearer tok0") =
      (.error .unknownKey, initialState "https://example.test/auth", 0) :=
  missing_or_zero_iat_no_fetch jose0 fenvGood 60
    (initialState "https://example.test/auth") (some "Bearer tok0") "tok0" d0
    rfl rfl rfl (Or.inl rfl)

/-- Claim C10: whenever the first key lookup finds a key for the token's
`kid`, the call leaves the key-store snapshot and `keyStoreUpdated`
unchanged and performs zero fetches. -/
theorem lookup_hit_no_state_change
    (jose : JoseEnv) (env : FetchEnv) (now : Int) (s : ClientState)
    (hdr : Option String) (token : String) (d : DecodedToken) (key : SigningKey)
    (htok : getBearerToken hdr = some token)
    (hdec : jose.decode token = some d)
    (hkey : keyStoreGet s.keyStore d.kid = some key) :
    (authenticate jose env now s hdr).2.1 = s ∧
    (authenticate jose env now s hdr).2.2 = 0 := by
  cases hv : verifyIdToken jose now token key s.issuer with
  | none =>
    simp [authenticate, htok, getKey_hit jose env now s token d key hdec hkey,
      hv]
  | some d2 =>
    simp [authenticate, htok, getKey_hit jose env now s token d key hdec hkey,
      hv]

/-- Witness for C10 at a concrete lookup hit. -/
theorem lookup_hit_no_state_change_witness :
    (authenticate jose1 fenvGood 60 sReady (some "Bearer tok1")).2.1 =
      sReady ∧
    (authenticate jose1 fenvGood 60 sReady (some "Bearer tok1")).2.2 = 0 :=
  lookup_hit_no_state_change jose1 fenvGood 60 sReady (some "Bearer tok1")
    "tok1" d1 key1 rfl rfl rfl

/-- Claim C4: claim validation requires `aud` equal to the fixed value
`backstage` and `iss` equal to the configured issuer; a token whose `aud`
or `iss` mismatches fails with `invalidToken` even when its signature is
valid (and the only algorithm ever checked is the fixed ES256). -/
theorem wrong_aud_or_iss_invalidToken
    (jose : JoseEnv) (env : FetchEnv) (now : Int) (s : ClientState)
    (hdr : Option String) (token : String) (d : DecodedToken) (key : SigningKey)
    (htok : getBearerToken hdr = some token)
    (hdec : jose.decode token = some d)
    (hkey : keyStoreGet s.keyStore d.kid = some key)
    (_hsig : jose.sigValid token key "ES256" = true)
    (hbad : d.aud ≠ "backstage" ∨ d.iss ≠ s.issuer) :
    (authenticate jose env now s hdr).1 = .error .invalidToken := by
  have hv := verifyIdToken_bad_claims jose now token key s.issuer d hdec hbad
  simp [authenticate, htok, getKey_hit jose env now s token d key hdec hkey,
    hv]

/-- Witness for C4: a token with the wrong audience and a valid signature
is rejected as invalid. -/
theorem wrong_aud_or_iss_invalidToken_witness :
    (authenticate joseBadAud fenvGood 60 sReady (some "Bearer tokBad")).1 =
      .error .invalidToken :=
  wrong_aud_or_iss_invalidToken joseBadAud fenvGood 60 sReady
    (some "Bearer tokBad") "tokBad" dBadAud key1 rfl rfl rfl rfl
    (Or.inl (by decide))

/-- Claim C2: for a token whose `kid` is not in the store, if its `iat`
is strictly greater than `keyStoreUpdated` then `authenticate` performs
exactly one fetch-and-replace and re-runs the lookup (failing with
`unknownKey` when the fetched set lacks the key, otherwise proceeding to
verification); if its `iat` is at most `keyStoreUpdated` it fails with
`unknownKey` with zero fetches. -/
theorem unknown_kid_refresh_decision
    (jose : JoseEnv) (env : FetchEnv) (now : Int) (s : ClientState)
    (hdr : Option String) (token : String) (d : DecodedToken) (i : Int)
    (htok : getBearerToken hdr = some token)
    (hdec : jose.decode token = some d)
    (hmiss : keyStoreGet s.keyStore d.kid = none)
    (hiat : d.iat = some i)
    (hnn : 0 ≤ s.keyStoreUpdated) :
    (s.keyStoreUpdated < i →
      (authenticate jose env now s hdr).2.2 = 1 ∧
      (∀ m, refreshKeyStore env now s = .error m →
        authenticate jose env now s hdr = (.error (.fetchError m), s, 1)) ∧
      (∀ s2, refreshKeyStore env now s = .ok s2 →
        (keyStoreGet s2.keyStore d.kid = none →
          authenticate jose env now s hdr = (.error .unknownKey, s2, 1)) ∧
        (∀ key, keyStoreGet s2.keyStore d.kid = some key →
          authenticate jose env now s hdr =
            ((match verifyIdToken jose now token key s2.issuer with
              | none => Except.error AuthErr.invalidToken
              | some d2 => Except.ok { id := d2.sub, idToken := token }),
              s2, 1)))) ∧
    (i ≤ s.keyStoreUpdated →
      authenticate jose env now s hdr = (.error .unknownKey, s, 0)) := by
  constructor
  · intro hlt
    have hne : i ≠ 0 := by omega
    have hguard : iatTriggersRefresh d.iat s.keyStoreUpdated = true := by
      simp [iatTriggersRefresh, hiat, hne, hlt]
    have hgk := getKey_miss_refresh jose env now s token d hdec hmiss hguard
    refine ⟨?_, ?_, ?_⟩
    · cases hr : refreshKeyStore env now s with
      | error m =>
        rw [hr] at hgk
        simp [authenticate, htok, hgk]
      | ok s2 =>
        rw [hr] at hgk
        cases hk2 : keyStoreGet s2.keyStore d.kid with
        | none => simp [authenticate, htok, hgk, hk2]
        | some key =>
          cases hv : verifyIdToken jose now token key s2.issuer with
          | none => simp [authenticate, htok, hgk, hk2, hv]
          | some dd => simp [authenticate, htok, hgk, hk2, hv]
    · intro m hm
      rw [hm] at hgk
      simp [authenticate, htok, hgk]
    · intro s2 hs2
      rw [hs2] at hgk
      constructor
      · intro hk2
        simp [authenticate, htok, hgk, hk2]
      · intro key hk2
        cases hv : verifyIdToken jose now token key s2.issuer with
        | none => simp [authenticate, htok, hgk, hk2, hv]
        | some dd => simp [authenticate, htok, hgk, hk2, hv]
  · intro hle
    have hguard : iatTriggersRefresh d.iat s.keyStoreUpdated = false := by
      simp only [iatTriggersRefresh, hiat, Bool.and_eq_false_iff,
        decide_eq_false_iff_not]
      right
      omega
    simp [authenticate, htok,
      getKey_miss_norefresh jose env now s token d hdec hmiss hguard]

/-- Witness for C2: a fresh `kid` with `iat` newer than the store
triggers one successful fetch, after which verification succeeds. -/
theorem unknown_kid_refresh_decision_witness :
    authenticate jose2 fenvGood 60 sMiss (some "Bearer tok2") =
      (.ok { id := "bob", idToken := "tok2" }, sAfter, 1) := by
  have h := (unknown_kid_refresh_decision jose2 fenvGood 60 sMiss
      (some "Bearer tok2") "tok2" d2 100 rfl rfl rfl rfl (by decide)).1
    (by decide)
  have h2 := (h.2.2 sAfter rfl).2 key2 rfl
  exact h2

/-- Claim C6: the key fetch fails whenever the HTTP status is not in the
success range (with a message carrying status code, status text and raw
body), whenever the body is not parseable as the expected structure, and
whenever any individual key record cannot be converted — in every case
`refreshKeyStore` returns an error, so no partial key set is installed. -/
theorem fetch_failure_modes (env : FetchEnv) (now : Int) (s : ClientState)
    (keys : List JWKECKey) :
    (env.response.ok = false →
      refreshKeyStore env now s = .error ("Request failed with " ++
        toString env.response.status ++ " " ++ env.response.statusText ++
        ", " ++ env.response.body)) ∧
    (env.response.ok = true → env.parseJson env.response.body = none →
      refreshKeyStore env now s = .error "Failed to parse response body") ∧
    (env.response.ok = true → env.parseJson env.response.body = some keys →
      (∃ k ∈ keys, env.asKey k = none) →
      refreshKeyStore env now s = .error "Failed to convert key record") := by
  refine ⟨?_, ?_, ?_⟩
  · intro hok
    simp [refreshKeyStore, listPublicKeys, hok]
  · intro hok hparse
    simp [refreshKeyStore, listPublicKeys, hok, hparse]
  · intro hok hparse hbad
    simp [refreshKeyStore, listPublicKeys, hok, hparse,
      convertKeys_eq_none env.asKey keys hbad]

/-- Witness for C6: a 500 response makes the fetch fail with the message
built from status, status text and body. -/
theorem fetch_failure_modes_witness :
    refreshKeyStore fenvBad 60 sMiss =
      .error "Request failed with 500 Internal Server Error, oops" :=
  (fetch_failure_modes fenvBad 60 sMiss []).1 rfl

/-- Claim C7: when a refresh attempt fails, the key-store snapshot and
`keyStoreUpdated` are left exactly as before the attempt, and
`authenticate` fails with an error value (`fetchError`) rather than
crashing. -/
theorem refresh_failure_preserves_state
    (jose : JoseEnv) (env : FetchEnv) (now : Int) (s : ClientState)
    (hdr : Option String) (token : String) (d : DecodedToken) (m : String)
    (htok : getBearerToken hdr = some token)
    (hdec : jose.decode token = some d)
    (hmiss : keyStoreGet s.keyStore d.kid = none)
    (hguard : iatTriggersRefresh d.iat s.keyStoreUpdated = true)
    (hfail : refreshKeyStore env now s = .error m) :
    authenticate jose env now s hdr = (.error (.fetchError m), s, 1) := by
  have hgk := getKey_miss_refresh jose env now s token d hdec hmiss hguard
  rw [hfail] at hgk
  simp [authenticate, htok, hgk]

/-- Witness for C7: a failing fetch leaves the store untouched and the
call fails with the fetch error. -/
theorem refresh_failure_preserves_state_witness :
    authenticate jose2 fenvBad 60 sMiss (some "Bearer tok2") =
      (.error (.fetchError
        "Request failed with 500 Internal Server Error, oops"), sMiss, 1) :=
  refresh_failure_preserves_state jose2 fenvBad 60 sMiss
    (some "Bearer tok2") "tok2" d2
    "Request failed with 500 Internal Server Error, oops" rfl rfl rfl
    (by decide) rfl

/-- Claim C8: calling `authenticate` a second time with the same token
against the state left by a successful call yields a structurally
identical identity result, the same state, and zero additional fetches
(whatever the network would now answer). -/
theorem authenticate_idempotent
    (jose : JoseEnv) (env env2 : FetchEnv) (now : Int) (s : ClientState)
    (hdr : Option String) (ident : BackstageIdentity) (s1 : ClientState)
    (n1 : Nat)
    (h : authenticate jose env now s hdr = (.ok ident, s1, n1)) :
    authenticate jose env2 now s1 hdr = (.ok ident, s1, 0) := by
  cases htok : getBearerToken hdr with
  | none =>
    simp [authenticate, htok] at h
  | some token =>
    rcases hgk : getKey jose env now s token with ⟨r, sx, nx⟩
    cases r with
    | error e =>
      simp [authenticate, htok, hgk] at h
    | ok v =>
      cases v with
      | none =>
        simp [authenticate, htok, hgk] at h
      | some key =>
        cases hv : verifyIdToken jose now token key sx.issuer with
        | none =>
          simp [authenticate, htok, hgk, hv] at h
        | some d2 =>
          simp only [authenticate, htok, hgk, hv, Prod.mk.injEq,
            Except.ok.injEq] at h
          obtain ⟨hident, hs1, _⟩ := h
          subst hs1
          obtain ⟨d, hdec, hkey⟩ :=
            getKey_ok_some_lookup jose env now s token key sx nx hgk
          simp [authenticate, htok,
            getKey_hit jose env2 now sx token d key hdec hkey, hv, hident]

/-- Witness for C8: a first call that fetched and succeeded, followed by
a second call on the resulting state that succeeds identically with no
fetch (even against a network that now only returns errors). -/
theorem authenticate_idempotent_witness :
    authenticate jose2 fenvBad 60 sAfter (some "Bearer tok2") =
      (.ok { id := "bob", idToken := "tok2" }, sAfter, 0) :=
  authenticate_idempotent jose2 fenvGood fenvBad 60 sMiss
    (some "Bearer tok2") { id := "bob", idToken := "tok2" } sAfter 1 rfl

end Backstage
